import Mathlib

/-!
Shallow embedding of `src/summarize.py` (chatgpt-summarize-all-missions).

The script reads a CSV of per-flight agronomic observations, pivots it to one
row per field with one "Flight k" text column per pass number, asks a text
generation service for a per-field summary with a retry/backoff loop, and
writes the result CSV with a final `field_summary` column.

Modelling conventions:
- A dataframe cell that can hold either a string or the pandas missing-value
  marker NaN (a float) is modelled by `Cell`; a cell looked up in a row that
  may lack the column is `Option Cell` (Python `Series.get` returns `None`
  for a missing key).
- `pd.read_csv` parses an empty CSV cell as NaN under its default NA handling,
  so a raw CSV cell is modelled as a `String` and `readCell` maps `""` to
  `none` (NaN) and any other text to `some`.
- Exceptions from the generation call (network errors, missing message item,
  empty content) are modelled by an oracle `Nat → Except String String`
  giving, per attempt index, either the failure description or the extracted
  message text.
- Real-time sleeping is modelled by recording the slept durations (rationals,
  since the Python values `backoff * (attempt + 1)` are exact here).
-/

/-- A pandas cell as seen by `build_flight_blob`: either a string or a
non-string value (the NaN missing marker, or any other non-string). -/
inductive Cell where
  | str (s : String)
  | nan
deriving DecidableEq, Repr

/-- A wide-table row as passed to `build_flight_blob`: an association list
from column name to cell, mirroring a pandas `Series`. -/
def FlightRow : Type := List (String × Cell)

instance : DecidableEq FlightRow := by
  unfold FlightRow
  infer_instance

/-- `row.get(key)` on a pandas `Series`: `none` when the column is absent,
otherwise the stored cell. -/
def rowGet (row : FlightRow) (key : String) : Option Cell :=
  (List.find? (fun kv => kv.1 = key) row).map (fun kv => kv.2)

/-- Python `str.strip` whitespace test, restricted to the ASCII whitespace
characters that can occur in CSV text fields. -/
def isSpaceChar (c : Char) : Bool :=
  c = ' ' || c = '\t' || c = '\n' || c = '\r' || c = '\x0b' || c = '\x0c'

/-- Strip leading and trailing whitespace from a character list. -/
def trimChars (cs : List Char) : List Char :=
  (((cs.dropWhile isSpaceChar).reverse).dropWhile isSpaceChar).reverse

/-- Python `str.strip()` with no arguments. -/
def strip (s : String) : String :=
  String.mk (trimChars s.data)

/-- The column label `"Flight i"` used throughout the script. -/
def flightKey (i : Nat) : String :=
  "Flight " ++ toString i

/-- The bullet line contributed by slot `i` of the loop body of
`build_flight_blob` when the cell under `"Flight i"` is a string with
non-whitespace content: `some "- Flight i: <stripped text>"`, else `none`. -/
def partFor (row : FlightRow) (i : Nat) : Option String :=
  match rowGet row (flightKey i) with
  | some (Cell.str s) => if strip s ≠ "" then some ("- Flight " ++ toString i ++ ": " ++ strip s) else none
  | _ => none

/-- The `parts` list accumulated by `build_flight_blob`'s
`for i in range(1, 7)` loop. -/
def flightParts (row : FlightRow) : List String :=
  (List.range' 1 6).filterMap (partFor row)

/-- Python `"\n".join(parts)`. -/
def joinNewline : List String → String
  | [] => ""
  | [s] => s
  | s :: t :: rest => s ++ "\n" ++ joinNewline (t :: rest)

/-- The placeholder used when no flight narrative is available. -/
def noFlightLine : String := "- No flight narratives available."

/-- `build_flight_blob(row)` from `src/summarize.py`. -/
def build_flight_blob (row : FlightRow) : String :=
  if flightParts row = [] then noFlightLine else joinNewline (flightParts row)

/-- The slots of 1..6 whose cell is a string with non-whitespace content,
in slot order (an independent description of which slots contribute). -/
def goodSlots (row : FlightRow) : List Nat :=
  (List.range' 1 6).filter (fun i => (partFor row i).isSome)

/-- The bullet line of a contributing slot (total version, for statements). -/
def slotLine (row : FlightRow) (i : Nat) : String :=
  (partFor row i).getD ""

theorem flightParts_eq_goodSlots (row : FlightRow) :
    flightParts row = (goodSlots row).map (slotLine row) := by
  unfold flightParts goodSlots
  induction (List.range' 1 6) with
  | nil => rfl
  | cons a l ih =>
      simp only [List.filterMap_cons, List.filter_cons]
      cases h : partFor row a with
      | none => simpa [h] using ih
      | some s => simpa [h, slotLine] using ih

/-! ## The observation table and `pivot_flights` -/

/-- One row of the long-format observation dataframe, as consumed by
`pivot_flights`.  The six identifying/descriptive attributes are CSV text
cells (assumed present and non-missing, as the script requires); the two
narrative source columns may hold NaN, modelled by `Option String`. -/
structure ObsRow where
  field_id : String
  field_name : String
  client_name : String
  farm_name : String
  crop_name : String
  area : String
  pass_number : Nat
  mission_rec : Option String
  ag_assistant : Option String
deriving DecidableEq, Repr

/-- The six-attribute pivot index of `pivot_flights`. -/
structure FieldKey where
  field_id : String
  field_name : String
  client_name : String
  farm_name : String
  crop_name : String
  area : String
deriving DecidableEq, Repr

/-- The pivot index tuple of an observation row. -/
def rowKey (r : ObsRow) : FieldKey :=
  ⟨r.field_id, r.field_name, r.client_name, r.farm_name, r.crop_name, r.area⟩

/-- `Series.combine_first`: keep the first series' value unless it is the
missing marker NaN, in which case take the other series' value. -/
def combineFirst (primary fallback : Option String) : Option String :=
  match primary with
  | some s => some s
  | none => fallback

/-- A raw CSV cell as parsed by `pd.read_csv` with default NA handling: an
empty cell becomes the missing marker NaN. -/
def readCell (s : String) : Option String :=
  if s = "" then none else some s

/-- The `resolved_text` of a row whose raw CSV narrative cells are `p`
(mission_rec) and `f` (ag_assistant):
`df["mission_rec"].combine_first(df["ag_assistant"])` applied after
`pd.read_csv`. -/
def resolveNarrative (p f : String) : Option String :=
  combineFirst (readCell p) (readCell f)

/-- The `resolved_text` column value of a dataframe row. -/
def rowResolved (r : ObsRow) : Option String :=
  combineFirst r.mission_rec r.ag_assistant

/-- Worker of `drop_duplicates(subset=["field_id", "pass_number"])` with the
pandas default `keep="first"`: keep a row only if its
`(field_id, pass_number)` pair has not been seen earlier. -/
def dedupGo (seen : List (String × Nat)) : List ObsRow → List ObsRow
  | [] => []
  | r :: rs =>
      if (r.field_id, r.pass_number) ∈ seen then dedupGo seen rs
      else r :: dedupGo ((r.field_id, r.pass_number) :: seen) rs

/-- `df.drop_duplicates(subset=["field_id", "pass_number"])` (the column
projection kept by the script carries exactly the fields of `ObsRow`'s key
and attributes plus `resolved_text`, so deduplication is modelled directly on
`ObsRow`). -/
def dedupByFieldPass (rows : List ObsRow) : List ObsRow :=
  dedupGo [] rows

/-- The rows that contribute cells to the pivot: `pivot_table` groups by the
six attributes and `pass_number`, aggregates with `"first"`, and (with the
default `dropna=True`) drops aggregated entries whose value is NaN before
unstacking.  After deduplication every group has at most one row, so this
equals filtering out rows whose `resolved_text` is NaN. -/
def survivingRows (rows : List ObsRow) : List ObsRow :=
  (dedupByFieldPass rows).filter (fun r => (rowResolved r).isSome)

/-- Lexicographic comparison of pivot index tuples, modelling how
`pivot_table` (default `sort=True`) sorts the resulting index. -/
def keyLeB (a b : FieldKey) : Bool :=
  if a.field_id ≠ b.field_id then decide (a.field_id < b.field_id)
  else if a.field_name ≠ b.field_name then decide (a.field_name < b.field_name)
  else if a.client_name ≠ b.client_name then decide (a.client_name < b.client_name)
  else if a.farm_name ≠ b.farm_name then decide (a.farm_name < b.farm_name)
  else if a.crop_name ≠ b.crop_name then decide (a.crop_name < b.crop_name)
  else decide (a.area ≤ b.area)

/-- The sorted distinct index tuples of the pivoted table: one per unique
six-attribute combination among the groups that survive the NaN drop. -/
def pivotKeys (rows : List ObsRow) : List FieldKey :=
  List.insertionSort (fun a b => keyLeB a b = true)
    (((survivingRows rows).map rowKey).dedup)

/-- The sorted distinct pass numbers of the surviving rows: the column axis
of the pivoted table (unstacked columns come out sorted). -/
def flightCols (rows : List ObsRow) : List Nat :=
  List.insertionSort (· ≤ ·) (((survivingRows rows).map ObsRow.pass_number).dedup)

/-- The cell of the pivoted table at index tuple `k`, column `pass_number = p`:
the `resolved_text` of the (unique) surviving row of that group, or NaN for
an absent combination. -/
def pivotCell (rows : List ObsRow) (k : FieldKey) (p : Nat) : Option String :=
  match (survivingRows rows).find? (fun r => decide (rowKey r = k ∧ r.pass_number = p)) with
  | some r => rowResolved r
  | none => none

/-- One row of the wide table returned by `pivot_flights`, after
`reset_index`: the six attributes (in `key`) followed by one cell per
`"Flight k"` column. -/
structure WideRow where
  key : FieldKey
  cells : List (Option String)
deriving DecidableEq, Repr

/-- `pivot_flights(df)` from `src/summarize.py`: pivoted rows, one per
surviving index tuple, with one cell per flight column. -/
def pivot_flights (rows : List ObsRow) : List WideRow :=
  (pivotKeys rows).map (fun k => ⟨k, (flightCols rows).map (pivotCell rows k)⟩)

/-- The six attribute column names, in the order fixed by the script. -/
def attrColumns : List String :=
  ["field_id", "field_name", "client_name", "farm_name", "crop_name", "area"]

/-- The renamed flight column label: `f"Flight \x7bint(c)\x7d"`. -/
def flightLabel (p : Nat) : String :=
  "Flight " ++ toString p

/-- The column list of the CSV written by `main`: the reset index columns,
then the renamed flight columns, then `field_summary`, which `main` assigns
last (`wide["field_summary"] = summaries`). -/
def outputColumns (rows : List ObsRow) : List String :=
  attrColumns ++ (flightCols rows).map flightLabel ++ ["field_summary"]

/-! ## The retry loop of `summarize_row`

The generation request (`client.responses.create` followed by extraction of
the first message-type output item's first content block) is abstracted by an
oracle `call : Nat → Except String String`: per attempt index, either the
description of the raised exception or the extracted (unstripped) message
text.  The function returns the Python return value (`none` models Python's
implicit `None`) together with the list of durations passed to `time.sleep`,
in order. -/

/-- The `for attempt in range(retries)` loop body of `summarize_row`, taking
the list of remaining attempt indices. -/
def summarizeLoop (call : Nat → Except String String) (retries : Nat)
    (backoff : ℚ) : List Nat → Option String × List ℚ
  | [] => (none, [])
  | attempt :: rest =>
      match call attempt with
      | Except.ok t => (some (strip t), [])
      | Except.error e =>
          if attempt = retries - 1 then (some ("[LLM error] " ++ e), [])
          else
            let r := summarizeLoop call retries backoff rest
            (r.1, backoff * ((attempt + 1 : Nat) : ℚ) :: r.2)

/-- `summarize_row(client, model, row, retries, backoff)` from
`src/summarize.py`, with the generation request abstracted as `call` (the
prompt construction from `row` is modelled separately by
`build_flight_blob`).  Result: the returned value and the slept delays. -/
def summarize_row (call : Nat → Except String String) (retries : Nat)
    (backoff : ℚ) : Option String × List ℚ :=
  summarizeLoop call retries backoff (List.range retries)

/-- The default `retries=3` of `summarize_row`. -/
def defaultRetries : Nat := 3

/-- The default `backoff=2.0` of `summarize_row` (exact as a rational). -/
def defaultBackoff : ℚ := 2

/-! ## Output path resolution in `main` -/

/-- `pathlib.PurePath.name`: the final path component (for paths without a
trailing slash, which is the case for input CSV file paths). -/
def pathName (p : String) : String :=
  String.mk (((p.data.reverse).takeWhile (fun c => c ≠ '/')).reverse)

/-- Split a final component into `(stem, suffix)` following
`pathlib.PurePath.stem` and `.suffix`: the extension starts at the last dot,
provided that dot is neither the first nor the last character of the name. -/
def splitExt (name : String) : String × String :=
  let cs := name.data
  match ((List.range cs.length).filter (fun i => cs.getD i ' ' = '.')).getLast? with
  | some i =>
      if 0 < i ∧ i < cs.length - 1 then (String.mk (cs.take i), String.mk (cs.drop i))
      else (name, "")
  | none => (name, "")

/-- `Path(args.input).stem`. -/
def pathStem (p : String) : String :=
  (splitExt (pathName p)).1

/-- `Path(args.input).suffix`. -/
def pathSuffix (p : String) : String :=
  (splitExt (pathName p)).2

/-- The default output filename
`f"\x7binput_path.stem\x7d-summarized\x7binput_path.suffix\x7d"`. -/
def defaultOutputName (input : String) : String :=
  pathStem input ++ "-summarized" ++ pathSuffix input

/-- `output = args.output or f"..."`: `args.output` is `None` when the flag
is absent, and Python's `or` also falls through on an empty string. -/
def resolveOutput (outputArg : Option String) (input : String) : String :=
  match outputArg with
  | some o => if o = "" then defaultOutputName input else o
  | none => defaultOutputName input

/-! ## Concrete inputs used by witnesses and counterexamples -/

/-- Field A, pass 1, both narrative sources missing. -/
def obsA1 : ObsRow := ⟨"A", "Alpha", "Cl", "Fa", "corn", "10", 1, none, none⟩

/-- Field A, pass 2, both narrative sources missing. -/
def obsA2 : ObsRow := ⟨"A", "Alpha", "Cl", "Fa", "corn", "10", 2, none, none⟩

/-- Field B, pass 1, primary narrative present. -/
def obsB1 : ObsRow := ⟨"B", "Beta", "Cl", "Fa", "corn", "12", 1, some "good stand", none⟩

/-- A second row with the same `(field_id, pass_number)` as `obsB1` but a
different narrative and field name. -/
def obsB1dup : ObsRow := ⟨"B", "Beta2", "Cl", "Fa", "corn", "12", 1, some "other text", none⟩

/-- The pivot index tuple of field A. -/
def keyA : FieldKey := ⟨"A", "Alpha", "Cl", "Fa", "corn", "10"⟩

/-- An input in which field A's resolved narratives are all missing while
field B has one for the same pass number. -/
def cexPivotRows : List ObsRow := [obsA1, obsA2, obsB1]

/-- A generation-call oracle failing on the first two attempts and
succeeding on the third. -/
def cexCall : Nat → Except String String := fun i =>
  if i < 2 then Except.error ("fail " ++ toString i) else Except.ok " ok text "

/-! ## Helper lemmas -/

theorem mem_of_mem_dedupGo :
    ∀ (rows : List ObsRow) (seen : List (String × Nat)) (r : ObsRow),
      r ∈ dedupGo seen rows → r ∈ rows := by
  intro rows
  induction rows with
  | nil => intro seen r h; simp [dedupGo] at h
  | cons a l ih =>
      intro seen r h
      unfold dedupGo at h
      by_cases hk : (a.field_id, a.pass_number) ∈ seen
      · rw [if_pos hk] at h
        exact List.mem_cons_of_mem a (ih seen r h)
      · rw [if_neg hk] at h
        rcases List.mem_cons.1 h with h1 | h2
        · exact h1 ▸ List.mem_cons_self a l
        · exact List.mem_cons_of_mem a (ih _ r h2)

/-- The row filter used to talk about a `(field_id, pass_number)` pair. -/
def matchesPair (fid : String) (p : Nat) (r : ObsRow) : Bool :=
  decide (r.field_id = fid ∧ r.pass_number = p)

theorem matchesPair_iff (fid : String) (p : Nat) (r : ObsRow) :
    matchesPair fid p r = true ↔ (r.field_id, r.pass_number) = (fid, p) := by
  simp [matchesPair, Prod.ext_iff]

theorem dedupGo_filter (fid : String) (p : Nat) :
    ∀ (rows : List ObsRow) (seen : List (String × Nat)),
      (dedupGo seen rows).filter (matchesPair fid p) =
        if (fid, p) ∈ seen then []
        else (rows.find? (matchesPair fid p)).toList := by
  intro rows
  induction rows with
  | nil => intro seen; simp [dedupGo]
  | cons r rs ih =>
      intro seen
      unfold dedupGo
      by_cases hk : (r.field_id, r.pass_number) ∈ seen
      · rw [if_pos hk, ih seen]
        by_cases hs : (fid, p) ∈ seen
        · simp [hs]
        · have hm : ¬ matchesPair fid p r = true := by
            intro hmt
            exact hs ((matchesPair_iff fid p r).1 hmt ▸ hk)
          simp [hs, List.find?_cons_of_neg _ (by simpa using hm)]
      · rw [if_neg hk, List.filter_cons]
        by_cases hm : matchesPair fid p r = true
        · have hkey : (r.field_id, r.pass_number) = (fid, p) := (matchesPair_iff fid p r).1 hm
          have hs : (fid, p) ∉ seen := hkey ▸ hk
          rw [ih ((r.field_id, r.pass_number) :: seen)]
          simp [hm, hkey, hs, List.find?_cons_of_pos _ hm]
        · have hkey : (r.field_id, r.pass_number) ≠ (fid, p) := fun h =>
            hm ((matchesPair_iff fid p r).2 h)
          rw [ih ((r.field_id, r.pass_number) :: seen)]
          by_cases hs : (fid, p) ∈ seen
          · simp [hm, hs, hkey, List.mem_cons]
          · simp only [hm, hs, hkey, List.mem_cons, if_false, ite_false,
              List.find?_cons_of_neg _ (by simpa using hm)]
            simp
            intro h1 h2
            exact absurd ((matchesPair_iff fid p r).2 (by rw [← h1, ← h2])) hm

theorem pivot_flights_keys (rows : List ObsRow) :
    (pivot_flights rows).map WideRow.key = pivotKeys rows := by
  unfold pivot_flights
  rw [List.map_map]
  exact List.map_id _

theorem pivotKeys_count (rows : List ObsRow) (k : FieldKey) :
    (pivotKeys rows).count k =
      if k ∈ (survivingRows rows).map rowKey then 1 else 0 := by
  unfold pivotKeys
  rw [(List.perm_insertionSort _ _).count_eq]
  rw [List.count_dedup]

/-! ## Claim theorems -/

/-- Claim C4: the narrative blob is the concatenation, in slot order, of one
bullet line `- Flight i: <trimmed text>` for each slot whose narrative is a
string with non-whitespace content; a field with narratives only in slots 2
and 5 yields exactly the two lines labeled Flight 2 then Flight 5, and a
field with no narratives yields the fixed placeholder line. -/
theorem blob_is_ordered_bullets_or_placeholder :
    (∀ row : FlightRow,
      build_flight_blob row =
        if goodSlots row = [] then noFlightLine
        else joinNewline ((goodSlots row).map (slotLine row)))
    ∧ build_flight_blob [(flightKey 2, Cell.str " mid season ok "), (flightKey 5, Cell.str "late tar spot")] =
        "- Flight 2: mid season ok" ++ "\n" ++ "- Flight 5: late tar spot"
    ∧ build_flight_blob ([] : FlightRow) = noFlightLine := by
  refine ⟨fun row => ?_, by decide, by decide⟩
  rw [build_flight_blob, flightParts_eq_goodSlots]
  by_cases h : goodSlots row = []
  · simp [h]
  · simp [h, List.map_eq_nil_iff]

/-- Claim C8: `build_flight_blob` reads only the columns `Flight 1` ..
`Flight 6` (so a `Flight k` narrative with `k ≥ 7` is never included), a
slot contributes exactly when its cell is a string with non-whitespace
content, and a non-string cell (such as the NaN marker) is skipped: a row
with NaN under `Flight 1` and a narrative under `Flight 7` produces the
placeholder blob. -/
theorem blob_includes_exactly_good_slots_one_to_six :
    (∀ row row' : FlightRow,
      (∀ i ∈ List.range' 1 6, rowGet row (flightKey i) = rowGet row' (flightKey i)) →
      build_flight_blob row = build_flight_blob row')
    ∧ (∀ (row : FlightRow) (i : Nat),
        i ∈ goodSlots row ↔
          i ∈ List.range' 1 6 ∧
            ∃ s, rowGet row (flightKey i) = some (Cell.str s) ∧ strip s ≠ "")
    ∧ build_flight_blob [(flightKey 1, Cell.nan), (flightKey 7, Cell.str "late disease")] =
        noFlightLine := by
  refine ⟨fun row row' h => ?_, fun row i => ?_, by decide⟩
  · have hp : flightParts row = flightParts row' := by
      unfold flightParts
      apply List.filterMap_congr
      intro i hi
      unfold partFor
      rw [h i hi]
    unfold build_flight_blob
    rw [hp]
  · unfold goodSlots
    rw [List.mem_filter]
    constructor
    · rintro ⟨hi, hg⟩
      refine ⟨hi, ?_⟩
      unfold partFor at hg
      cases hc : rowGet row (flightKey i) with
      | none => rw [hc] at hg; simp at hg
      | some c =>
          cases c with
          | nan => rw [hc] at hg; simp at hg
          | str s =>
              rw [hc] at hg
              by_cases hs : strip s ≠ ""
              · exact ⟨s, rfl, hs⟩
              · simp [hs] at hg
    · rintro ⟨hi, s, hc, hs⟩
      refine ⟨hi, ?_⟩
      unfold partFor
      rw [hc]
      simp [hs]

/-- Witness for claim C8 at a concrete pair of rows differing only in a
column outside the `Flight 1` .. `Flight 6` window. -/
theorem blob_slot_window_witness :
    build_flight_blob [(flightKey 2, Cell.str "canopy closed"), (flightKey 9, Cell.str "extra")] =
      build_flight_blob [(flightKey 2, Cell.str "canopy closed")] :=
  blob_includes_exactly_good_slots_one_to_six.1 _ _ (by decide)

/-- Claim C2: for a raw CSV row, the `resolved_text` equals the primary
narrative cell (`mission_rec`) when that cell is non-empty (an empty CSV
cell is parsed as the missing marker NaN), and equals the fallback cell
(`ag_assistant`, as parsed) when the primary cell is absent or empty. -/
theorem resolved_primary_else_fallback :
    (∀ p f : String, p ≠ "" → resolveNarrative p f = some p)
    ∧ (∀ p f : String, p = "" → resolveNarrative p f = readCell f) := by
  constructor
  · intro p f h
    simp [resolveNarrative, readCell, combineFirst, h]
  · intro p f h
    simp [resolveNarrative, readCell, combineFirst, h]

/-- Witness for claim C2: concrete primary/fallback cells. -/
theorem resolved_primary_else_fallback_witness :
    resolveNarrative "weeds in NE corner" "assistant note" = some "weeds in NE corner"
    ∧ resolveNarrative "" "assistant note" = readCell "assistant note" :=
  ⟨resolved_primary_else_fallback.1 _ _ (by decide),
   resolved_primary_else_fallback.2 _ _ rfl⟩

/-- Claim C3: when the input contains two or more rows with the same
`(field_id, pass_number)`, deduplication keeps exactly one row for that
pair, namely the first such row in input order (hence exactly its narrative
value). -/
theorem dedup_keeps_first_per_field_pass (rows : List ObsRow) (fid : String) (p : Nat)
    (h : 2 ≤ rows.countP (matchesPair fid p)) :
    ∃ first, rows.find? (matchesPair fid p) = some first ∧
      (dedupByFieldPass rows).filter (matchesPair fid p) = [first] := by
  have hpos : 0 < rows.countP (matchesPair fid p) := by omega
  have hex : ∃ r ∈ rows, matchesPair fid p r = true := List.countP_pos_iff.1 hpos
  have hsome : (rows.find? (matchesPair fid p)).isSome := by
    rw [List.find?_isSome]
    obtain ⟨r, hr, hm⟩ := hex
    exact ⟨r, hr, hm⟩
  obtain ⟨first, hfirst⟩ := Option.isSome_iff_exists.1 hsome
  refine ⟨first, hfirst, ?_⟩
  unfold dedupByFieldPass
  rw [dedupGo_filter fid p rows []]
  simp [hfirst]

/-- Witness for claim C3: two input rows share `(field_id, pass_number) =
("B", 1)` with different narratives; the first one is the row kept. -/
theorem dedup_keeps_first_witness :
    ∃ first, [obsB1, obsB1dup, obsA1].find? (matchesPair "B" 1) = some first ∧
      (dedupByFieldPass [obsB1, obsB1dup, obsA1]).filter (matchesPair "B" 1) = [first] :=
  dedup_keeps_first_per_field_pass [obsB1, obsB1dup, obsA1] "B" 1 (by decide)

/-- Counterexample to claim C1 as stated: in `cexPivotRows` the six-tuple of
field A occurs in the input, yet the output table has zero rows for it
(its resolved narratives are all missing, so the pivot drops the group). -/
theorem pivot_missing_input_key_cex :
    keyA ∈ cexPivotRows.map rowKey ∧
      ((pivot_flights cexPivotRows).map WideRow.key).count keyA = 0 := by
  decide

/-- Claim C1 (amended): the output table has exactly one row per unique
`(field_id, field_name, client_name, farm_name, crop_name, area)`
combination among the input rows that survive first-occurrence
deduplication on `(field_id, pass_number)` and whose resolved narrative is
non-missing; its columns are the six descriptive attributes, followed by
the `Flight k` narrative columns, followed by a final `field_summary`
column appended last. -/
theorem pivot_one_row_per_surviving_key (rows : List ObsRow) :
    (∀ k : FieldKey,
      ((pivot_flights rows).map WideRow.key).count k =
        if k ∈ (survivingRows rows).map rowKey then 1 else 0)
    ∧ (outputColumns rows).take 6 = attrColumns
    ∧ (outputColumns rows).drop 6 = (flightCols rows).map flightLabel ++ ["field_summary"]
    ∧ (outputColumns rows).getLast? = some "field_summary" := by
  refine ⟨fun k => ?_, ?_, ?_, ?_⟩
  · rw [pivot_flights_keys, pivotKeys_count]
  · simp [outputColumns, attrColumns]
  · simp [outputColumns, attrColumns]
  · unfold outputColumns
    rw [List.append_assoc, ← List.append_assoc, List.getLast?_concat]

/-- Claim C9: a field all of whose resolved narratives are missing is
dropped entirely by the pivot — the output table contains no row for its
six-tuple even though it appears in the input. -/
theorem pivot_drops_all_missing_field (rows : List ObsRow) (k : FieldKey)
    (_hmem : k ∈ rows.map rowKey)
    (hall : ∀ r ∈ rows, rowKey r = k → rowResolved r = none) :
    ((pivot_flights rows).map WideRow.key).count k = 0 := by
  rw [pivot_flights_keys]
  rw [List.count_eq_zero]
  intro hk
  have hk2 : k ∈ ((survivingRows rows).map rowKey).dedup := by
    unfold pivotKeys at hk
    exact ((List.perm_insertionSort _ _).mem_iff).1 hk
  rw [List.mem_dedup] at hk2
  obtain ⟨r, hr, hrk⟩ := List.mem_map.1 hk2
  have hr2 := List.mem_filter.1 hr
  have hrrows : r ∈ rows := mem_of_mem_dedupGo rows [] r hr2.1
  have hnone := hall r hrrows hrk
  rw [hnone] at hr2
  simp at hr2

/-- Witness for claim C9: field A of `cexPivotRows` appears in the input
with only missing narratives (field B has one for the same pass) and gets
no output row. -/
theorem pivot_drops_all_missing_field_witness :
    ((pivot_flights cexPivotRows).map WideRow.key).count keyA = 0 :=
  pivot_drops_all_missing_field cexPivotRows keyA (by decide) (by decide)

/-- Claim C5: with the default `retries = 3`, a generation call failing on
attempts 0 and 1 and succeeding on attempt 2 makes `summarize_row` return
the stripped successful text, after sleeping `backoff * 1` then
`backoff * 2` (linear backoff), for a total wait of their sum. -/
theorem retry_two_failures_then_success (call : Nat → Except String String)
    (b : ℚ) (t e0 e1 : String)
    (h0 : call 0 = Except.error e0) (h1 : call 1 = Except.error e1)
    (h2 : call 2 = Except.ok t) :
    summarize_row call defaultRetries b = (some (strip t), [b * 1, b * 2])
    ∧ (summarize_row call defaultRetries b).2.sum = b * 1 + b * 2 := by
  have key : summarize_row call defaultRetries b = (some (strip t), [b * 1, b * 2]) := by
    show summarizeLoop call 3 b (List.range 3) = _
    have h3 : List.range 3 = [0, 1, 2] := rfl
    rw [h3]
    simp only [summarizeLoop, h0, h1, h2]
    norm_num
  refine ⟨key, ?_⟩
  rw [key]
  simp [List.sum_cons]

/-- Witness for claim C5: the concrete oracle `cexCall` fails twice then
succeeds, with the default backoff. -/
theorem retry_two_failures_then_success_witness :
    summarize_row cexCall defaultRetries defaultBackoff =
      (some (strip " ok text "), [defaultBackoff * 1, defaultBackoff * 2])
    ∧ (summarize_row cexCall defaultRetries defaultBackoff).2.sum =
        defaultBackoff * 1 + defaultBackoff * 2 :=
  retry_two_failures_then_success cexCall defaultBackoff " ok text " "fail 0" "fail 1"
    rfl rfl rfl

theorem summarizeLoop_all_errors (call : Nat → Except String String)
    (retries : Nat) (b : ℚ) (errs : Nat → String)
    (h : ∀ i, i < retries → call i = Except.error (errs i)) :
    ∀ (k a : Nat), 1 ≤ k → a + k = retries →
      (summarizeLoop call retries b (List.range' a k)).1 =
        some ("[LLM error] " ++ errs (retries - 1)) := by
  intro k
  induction k with
  | zero => intro a h1 _; omega
  | succ k ih =>
      intro a _ hsum
      have hcall : call a = Except.error (errs a) := h a (by omega)
      rw [List.range'_succ]
      by_cases hk : k = 0
      · subst hk
        have ha : a = retries - 1 := by omega
        subst ha
        simp [summarizeLoop, hcall]
      · have ha : ¬ (a = retries - 1) := by omega
        simp only [summarizeLoop, hcall]
        rw [if_neg ha]
        exact ih (a + 1) (by omega) (by omega)

/-- Claim C6: when the generation call raises on every one of the
configured attempts, `summarize_row` returns (rather than raises) the
error-marker string `"[LLM error] "` followed by the description of the
last failure. -/
theorem exhausted_retries_error_marker (call : Nat → Except String String)
    (retries : Nat) (b : ℚ) (errs : Nat → String)
    (hr : 1 ≤ retries)
    (h : ∀ i, i < retries → call i = Except.error (errs i)) :
    (summarize_row call retries b).1 =
      some ("[LLM error] " ++ errs (retries - 1)) := by
  unfold summarize_row
  rw [List.range_eq_range']
  exact summarizeLoop_all_errors call retries b errs h retries 0 hr (by omega)

/-- Witness for claim C6: an oracle failing on every attempt with the
default retry count. -/
theorem exhausted_retries_error_marker_witness :
    (summarize_row (fun _ => Except.error "boom") defaultRetries defaultBackoff).1 =
      some ("[LLM error] " ++ "boom") :=
  exhausted_retries_error_marker (fun _ => Except.error "boom") defaultRetries
    defaultBackoff (fun _ => "boom") (by decide) (fun _ _ => rfl)

/-- Claim C10: with `retries = 0` the loop body never runs and
`summarize_row` falls off the end, returning Python `None` (modelled as
`none`) instead of a string, and sleeping never. -/
theorem zero_retries_returns_none (call : Nat → Except String String) (b : ℚ) :
    summarize_row call 0 b = (none, []) := rfl

/-- Claim C7: with no output argument the output filename is the input's
stem, then the fixed text `-summarized`, then the input's extension (so the
suffix is inserted between stem and extension); a non-empty explicit output
argument overrides the default. -/
theorem default_output_inserts_suffix :
    (∀ input : String, resolveOutput none input =
        pathStem input ++ "-summarized" ++ pathSuffix input)
    ∧ (∀ input o : String, o ≠ "" → resolveOutput (some o) input = o)
    ∧ resolveOutput none "data/fields.csv" = "fields-summarized.csv"
    ∧ pathStem "data/fields.csv" ++ pathSuffix "data/fields.csv" = "fields.csv" := by
  refine ⟨fun input => rfl, fun input o h => ?_, by decide, by decide⟩
  simp [resolveOutput, h]

/-- Witness for claim C7: an explicit non-empty output path wins. -/
theorem default_output_inserts_suffix_witness :
    resolveOutput (some "out.csv") "data/fields.csv" = "out.csv" :=
  default_output_inserts_suffix.2.1 "data/fields.csv" "out.csv" (by decide)
